import Mathlib

/-!
Verification of the SpeechTide voice-capture-to-text pipeline.

This file gives a shallow embedding, in Lean 4, of the parts of the
SpeechTide sources that the specification's claims are about:

* `src/hotkey_manager.py` — the hotkey activation state machine
  (`_on_key_press`, `_handle_hotkey_press`, `_handle_hotkey_release`,
  `_trigger_hotkey`);
* `src/menu_bar.py` — the recording controller
  (`_handle_hotkey`, `_process_pending_ui_operations`,
  `_start_recording_main_thread`, `_stop_recording_main_thread`,
  `_process_audio`);
* `src/openai_client.py` — the batch transcription request builder
  (`transcribe_audio`) and the streaming audio sender (`send_audio_data`);
* `src/audio_recorder.py` — the capture callback (`_audio_callback`),
  the volume computation, and the WAV container serialiser
  (`_create_wav_data`, `stop_recording`).

Machine integers are modelled as `Nat`/`Int`/`Rat`; byte strings are
`List Nat` with each element below 256; fallible paths are `Option` /
`Except`.  Every definition is translated line by line from the Python
source; theorems at the end of the file settle the specification's
claims against these definitions.
-/

namespace SpeechTide

/-! ## Hotkey activation state machine (`src/hotkey_manager.py`) -/

namespace HotkeyManager

/-- `self.interaction_mode` is the string `"click"` or `"hold"`. -/
inductive InteractionMode
  | click
  | hold
deriving DecidableEq, Repr

/-- The mutable fields of `HotkeyManager` that the press / release
handlers read and write.  `key_pressed_time` models the
`self.key_pressed_time` dict restricted to the single primary key the
code ever stores in it (`none` = key absent). -/
structure HotkeyState where
  interaction_mode : InteractionMode
  hold_threshold : ℚ
  key_pressed_time : Option ℚ
deriving DecidableEq, Repr

/-- `current_time = threading.current_thread().ident or 0` — the value the
listener callbacks use as a "time".  It is the listener thread's
identifier (or `0` when the identifier is `None`), not a clock reading. -/
def currentTimeOfThread (threadIdent : Option ℚ) : ℚ :=
  threadIdent.getD 0

/-- `_handle_hotkey_press`: record the press time; in click mode,
`_trigger_hotkey` fires immediately on press.  The returned `Bool` is
`true` iff `_trigger_hotkey` was invoked. -/
def handle_hotkey_press (s : HotkeyState) (press_time : ℚ) :
    HotkeyState × Bool :=
  let s1 := { s with key_pressed_time := some press_time }
  (s1, if s.interaction_mode = InteractionMode.click then true else false)

/-- Result of `_handle_hotkey_release`: the updated state, whether
`_trigger_hotkey` fired, and the `hold_duration` the handler computed
(`none` when the key had no recorded press and the handler returned
early). -/
structure ReleaseResult where
  state : HotkeyState
  fired : Bool
  hold_duration : Option ℚ
deriving DecidableEq, Repr

/-- `_handle_hotkey_release`: if no press is recorded, return early;
otherwise compute `hold_duration = release_time - press_time`, fire
`_trigger_hotkey` exactly when the mode is hold and the duration
reaches `hold_threshold`, and delete the recorded press time. -/
def handle_hotkey_release (s : HotkeyState) (release_time : ℚ) :
    ReleaseResult :=
  match s.key_pressed_time with
  | none => { state := s, fired := false, hold_duration := none }
  | some press_time =>
      let hold_duration := release_time - press_time
      let fired := if s.interaction_mode = InteractionMode.hold ∧
          s.hold_threshold ≤ hold_duration then true else false
      { state := { s with key_pressed_time := none }
        fired := fired
        hold_duration := some hold_duration }

/-- `_on_key_press`: compute `current_time` from the listener thread's
identifier and, when the pressed key is the configured primary key,
run `_handle_hotkey_press`. -/
def on_key_press (s : HotkeyState) (isPrimary : Bool)
    (threadIdent : Option ℚ) : HotkeyState × Bool :=
  if isPrimary then handle_hotkey_press s (currentTimeOfThread threadIdent)
  else (s, false)

/-- `_on_key_release`: compute `current_time` from the listener thread's
identifier and, when the released key is the configured primary key,
run `_handle_hotkey_release`. -/
def on_key_release (s : HotkeyState) (isPrimary : Bool)
    (threadIdent : Option ℚ) : ReleaseResult :=
  if isPrimary then handle_hotkey_release s (currentTimeOfThread threadIdent)
  else { state := s, fired := false, hold_duration := none }

end HotkeyManager

/-! ## Recording controller (`src/menu_bar.py`) -/

namespace MenuBar

/-- The `SpeechTideApp` fields the hotkey / UI-timer paths touch.
`recorder_starts` and `recorder_stops` count the calls the controller
makes to `audio_recorder.start_recording()` / `stop_recording()`, so
that "a new recording was started" is observable in the model. -/
structure AppState where
  is_recording : Bool
  is_transcribing : Bool
  pending_start_recording : Bool
  pending_stop_recording : Bool
  pending_set_transcribing : Bool
  pending_clear_transcribing : Bool
  api_key_valid : Bool
  recorder_starts : ℕ
  recorder_stops : ℕ
deriving DecidableEq, Repr

/-- `_handle_hotkey`: runs on the hotkey callback thread; it only flips
the pending flags, choosing by `self.is_recording` alone
(`self.is_transcribing` is not consulted). -/
def handle_hotkey (s : AppState) : AppState :=
  if s.is_recording then
    { s with pending_stop_recording := true, pending_start_recording := false }
  else
    { s with pending_start_recording := true, pending_stop_recording := false }

/-- `_start_recording_main_thread`: ignore the request if already
recording or if no valid API key is configured; otherwise set
`is_recording` and start the audio recorder. -/
def start_recording_main_thread (s : AppState) : AppState :=
  if s.is_recording then s
  else if !s.api_key_valid then s
  else
    { s with is_recording := true, recorder_starts := s.recorder_starts + 1 }

/-- `_stop_recording_main_thread`: ignore the request if not recording;
otherwise clear `is_recording`, stop the audio recorder and hand the
audio to a background processing thread. -/
def stop_recording_main_thread (s : AppState) : AppState :=
  if !s.is_recording then s
  else
    { s with is_recording := false, recorder_stops := s.recorder_stops + 1 }

/-- `_process_pending_ui_operations`: one tick of the 100 ms UI timer.
It consumes the start/stop request flags (start request checked first),
then the set-transcribing flag, then the clear-transcribing flag. -/
def process_pending_ui_operations (s : AppState) : AppState :=
  let s1 :=
    if s.pending_start_recording && !s.is_recording then
      start_recording_main_thread { s with pending_start_recording := false }
    else if s.pending_stop_recording && s.is_recording then
      stop_recording_main_thread { s with pending_stop_recording := false }
    else s
  let s2 :=
    if s1.pending_set_transcribing then
      { s1 with pending_set_transcribing := false, is_transcribing := true }
    else s1
  if s2.pending_clear_transcribing then
    { s2 with pending_clear_transcribing := false, is_transcribing := false }
  else s2

end MenuBar

/-! ## Batch transcription client (`src/openai_client.py`) -/

namespace OpenAIClient

/-- The `api_params` dict that `transcribe_audio` passes to
`client.audio.transcriptions.create`. -/
structure TranscriptionRequest where
  model : String
  file : List ℕ
  response_format : String
  language : Option String
deriving DecidableEq, Repr

/-- `transcribe_audio`, request side: the dict is built with the model
hardcoded to `"whisper-1"` (the `model` argument received from the
caller is logged but not placed in the request), the audio bytes as
the file, response format `"text"`, and the language key added only
when a language was given. -/
def transcribe_audio_request (audio_data : List ℕ) (model : String)
    (language : Option String) : TranscriptionRequest :=
  { model := "whisper-1"
    file := audio_data
    response_format := "text"
    language := language }

/-- Python's `str.strip()`: remove leading and trailing whitespace
characters. -/
def pyStrip (s : String) : String :=
  String.mk
    (((s.data.dropWhile Char.isWhitespace).reverse.dropWhile
        Char.isWhitespace).reverse)

/-- `transcribe_audio`, response side: the service's string response is
returned with surrounding whitespace stripped
(`response.strip()`). -/
def transcribe_audio_response (response : String) : String :=
  pyStrip response

/-- `send_audio_data` wraps the chunk in an `input_audio_buffer.append`
message carrying the base64-encoded audio. -/
structure AppendMessage where
  type : String
  audio : List Char
deriving DecidableEq, Repr

/-- The base64 alphabet used by `base64.b64encode`. -/
def base64Chars : List Char :=
  "ABCDEFGHIJKLMNOPQRSTUVWXYZabcdefghijklmnopqrstuvwxyz0123456789+/".toList

/-- Character for a 6-bit group. -/
def b64char (n : ℕ) : Char :=
  base64Chars.getD n '='

/-- `base64.b64encode` on a byte list (standard alphabet, `=` padding). -/
def base64Encode : List ℕ → List Char
  | [] => []
  | [a] => [b64char (a / 4), b64char (a % 4 * 16), '=', '=']
  | [a, b] => [b64char (a / 4), b64char (a % 4 * 16 + b / 16),
      b64char (b % 16 * 4), '=']
  | a :: b :: c :: rest =>
      b64char (a / 4) :: b64char (a % 4 * 16 + b / 16) ::
      b64char (b % 16 * 4 + c / 64) :: b64char (c % 64) :: base64Encode rest

/-- The append message built for one audio chunk. -/
def appendMessage (audio_chunk : List ℕ) : AppendMessage :=
  { type := "input_audio_buffer.append", audio := base64Encode audio_chunk }

/-- The `OpenAIClient` realtime-connection fields that `send_audio_data`
reads, plus the sequence of messages so far sent over the websocket. -/
structure RealtimeClientState where
  realtime_connected : Bool
  has_websocket : Bool
  sent_messages : List AppendMessage
deriving DecidableEq, Repr

/-- `send_audio_data`: when the session is not connected or no websocket
exists, return immediately — the chunk is not sent and no field of the
client records it; otherwise send one append message. -/
def send_audio_data (s : RealtimeClientState) (audio_chunk : List ℕ) :
    RealtimeClientState :=
  if !s.realtime_connected || !s.has_websocket then s
  else { s with sent_messages := s.sent_messages ++ [appendMessage audio_chunk] }

end OpenAIClient

/-! ## Controller audio processing (`src/menu_bar.py`, `_process_audio`) -/

namespace MenuBar

/-- The outcome of the remote batch call as seen by `_process_audio`:
`Except.ok response` is the service's raw response string,
`Except.error msg` is an exception raised by `transcribe_audio`. -/
abbrev ServiceOutcome := Except String String

/-- Observable effects of one `_process_audio` run. -/
structure ProcessAudioOutcome where
  set_transcribing : Bool
  logged : Option String
  delivered : Option String
  error_notified : Bool
  clear_transcribing : Bool
deriving DecidableEq, Repr

/-- `_process_audio`: set the transcribing flag, run the batch call,
and on success with a non-empty stripped transcript log the interaction
and insert the text; on an empty transcript only a warning is logged;
on an exception show an error notification; the `finally` block always
requests clearing the transcribing state. -/
def process_audio (service : ServiceOutcome) : ProcessAudioOutcome :=
  match service with
  | Except.ok response =>
      let transcription := OpenAIClient.transcribe_audio_response response
      if transcription ≠ "" ∧ OpenAIClient.pyStrip transcription ≠ "" then
        { set_transcribing := true
          logged := some transcription
          delivered := some transcription
          error_notified := false
          clear_transcribing := true }
      else
        { set_transcribing := true
          logged := none
          delivered := none
          error_notified := false
          clear_transcribing := true }
  | Except.error _ =>
      { set_transcribing := true
        logged := none
        delivered := none
        error_notified := true
        clear_transcribing := true }

end MenuBar

/-! ## Audio capture engine (`src/audio_recorder.py`) -/

namespace AudioRecorder

/-- The pyaudio sample-format constants the recorder can be configured
with. -/
inductive PaFormat
  | paInt16
  | paInt24
  | paInt32
  | paFloat32
  | paUInt8
deriving DecidableEq, Repr

/-- The `format_mapping` dict of `__init__`, with the documented
fallback to `paInt16` for unknown format strings. -/
def format_of_string (format_str : String) : PaFormat :=
  if format_str = "int16" then PaFormat.paInt16
  else if format_str = "int24" then PaFormat.paInt24
  else if format_str = "int32" then PaFormat.paInt32
  else if format_str = "float32" then PaFormat.paFloat32
  else if format_str = "uint8" then PaFormat.paUInt8
  else PaFormat.paInt16

/-- `pyaudio.PyAudio.get_sample_size`: bytes per sample of a format. -/
def get_sample_size : PaFormat → ℕ
  | PaFormat.paInt16 => 2
  | PaFormat.paInt24 => 3
  | PaFormat.paInt32 => 4
  | PaFormat.paFloat32 => 4
  | PaFormat.paUInt8 => 1

/-- One little-endian int16 sample from two bytes, as
`np.frombuffer(in_data, dtype=np.int16)` reads it. -/
def int16OfBytes (lo hi : ℕ) : ℤ :=
  let v : ℕ := lo + 256 * hi
  if v < 32768 then (v : ℤ) else (v : ℤ) - 65536

/-- `np.frombuffer(in_data, dtype=np.int16)`: the chunk's bytes viewed
as little-endian int16 samples (capture chunks always have even
length; a trailing odd byte, which numpy would reject, is dropped). -/
def int16Samples : List ℕ → List ℤ
  | lo :: hi :: rest => int16OfBytes lo hi :: int16Samples rest
  | _ => []

/-- Sum of squared samples (`audio_array.astype(np.float64) ** 2`,
summed). -/
def sumSq (xs : List ℤ) : ℚ :=
  (xs.map (fun x => ((x : ℚ)) ^ 2)).sum

/-- `mean_val = np.mean(audio_squared)` (Rat division, so the empty
case — which the code never reaches thanks to its length guard —
yields 0). -/
def mean_val (xs : List ℤ) : ℚ :=
  sumSq xs / (xs.length : ℚ)

/-- The guarded square root:
`volume = np.sqrt(mean_val) if np.isfinite(mean_val) and mean_val >= 0
else 0.0`.  Over exact rationals a mean of squares is always finite, so
only the sign guard remains observable. -/
noncomputable def volume_of_mean (m : ℚ) : ℝ :=
  if 0 ≤ m then Real.sqrt (m : ℝ) else 0

/-- `self.current_volume` as computed for one chunk by
`_audio_callback`: RMS of the int16 samples divided by `32768.0` when
the chunk has samples, `0.0` otherwise. -/
noncomputable def current_volume_of_chunk (in_data : List ℕ) : ℝ :=
  if 0 < (int16Samples in_data).length then
    volume_of_mean (mean_val (int16Samples in_data)) / 32768
  else 0

/-- The recorder fields `_audio_callback` reads and writes. -/
structure RecorderState where
  is_recording : Bool
  audio_data : List (List ℕ)
deriving DecidableEq, Repr

/-- What one `_audio_callback` invocation produces: the stored chunk
list afterwards, the volume values handed to the volume observer during
the call, and the second component of the returned tuple
(`pyaudio.paContinue`, modelled as `continue_flag = true`). -/
structure AudioCallbackResult where
  audio_data : List (List ℕ)
  observer_values : List ℝ
  continue_flag : Bool

/-- `_audio_callback`: while recording, append the chunk to
`self.audio_data`, compute the volume, and call the volume observer
(when registered) inside `try/except` — an exception raised by the
observer is caught and only logged, so `observer_raises` changes
nothing observable; the callback always returns
`(in_data, pyaudio.paContinue)`. -/
noncomputable def audio_callback (s : RecorderState) (in_data : List ℕ)
    (has_volume_callback : Bool) (observer_raises : Bool) :
    AudioCallbackResult :=
  if s.is_recording then
    { audio_data := s.audio_data ++ [in_data]
      observer_values :=
        if has_volume_callback then [current_volume_of_chunk in_data] else []
      continue_flag := true }
  else
    { audio_data := s.audio_data
      observer_values := []
      continue_flag := true }

/-! ### WAV container (`_create_wav_data` via the `wave` module) -/

/-- Two little-endian bytes of a 16-bit field. -/
def u16le (n : ℕ) : List ℕ :=
  [n % 256, n / 256 % 256]

/-- Four little-endian bytes of a 32-bit field. -/
def u32le (n : ℕ) : List ℕ :=
  [n % 256, n / 256 % 256, n / 65536 % 256, n / 16777216 % 256]

/-- ASCII bytes of the tag `RIFF`. -/
def riffTag : List ℕ := [82, 73, 70, 70]

/-- ASCII bytes of the tag `WAVE`. -/
def waveTag : List ℕ := [87, 65, 86, 69]

/-- ASCII bytes of the tag `fmt ` (with trailing space). -/
def fmtTag : List ℕ := [102, 109, 116, 32]

/-- ASCII bytes of the tag `data`. -/
def dataTag : List ℕ := [100, 97, 116, 97]

/-- `_create_wav_data`: join the captured chunks and serialise them
through `wave.open(..., 'wb')` with `setnchannels(self.channels)`,
`setsampwidth(get_sample_size(self.format))`,
`setframerate(self.sample_rate)` and `writeframes`.  The bytes the
`wave` module emits are the 44-byte canonical PCM RIFF header followed
by the sample data. -/
def create_wav_data (channels sample_rate : ℕ) (format : PaFormat)
    (audio_data : List (List ℕ)) : List ℕ :=
  riffTag ++ u32le (36 + audio_data.flatten.length) ++ waveTag ++
  fmtTag ++ u32le 16 ++ u16le 1 ++ u16le channels ++ u32le sample_rate ++
  u32le (sample_rate * channels * get_sample_size format) ++
  u16le (channels * get_sample_size format) ++
  u16le (get_sample_size format * 8) ++ dataTag ++
  u32le audio_data.flatten.length ++ audio_data.flatten

/-- The header fields and sample data recovered from a WAV byte
stream. -/
structure WavFile where
  channels : ℕ
  sample_rate : ℕ
  bits_per_sample : ℕ
  data : List ℕ
deriving DecidableEq, Repr

/-- A decoder for the canonical 44-byte-header PCM WAV layout: check the
`RIFF`/`WAVE`/`fmt `/`data` tags, the fmt-chunk size 16 and the PCM
format tag 1, read channels, sample rate and bits per sample from the
header, and return the sample data, whose length must match the
declared data-chunk size. -/
def decode_wav (bs : List ℕ) : Option WavFile :=
  match bs with
  | r0 :: r1 :: r2 :: r3 :: _s0 :: _s1 :: _s2 :: _s3 ::
    w0 :: w1 :: w2 :: w3 :: f0 :: f1 :: f2 :: f3 ::
    l0 :: l1 :: l2 :: l3 :: t0 :: t1 :: c0 :: c1 ::
    sr0 :: sr1 :: sr2 :: sr3 :: _br0 :: _br1 :: _br2 :: _br3 ::
    _ba0 :: _ba1 :: bp0 :: bp1 ::
    d0 :: d1 :: d2 :: d3 :: n0 :: n1 :: n2 :: n3 :: rest =>
      if [r0, r1, r2, r3] = riffTag ∧ [w0, w1, w2, w3] = waveTag ∧
         [f0, f1, f2, f3] = fmtTag ∧ [l0, l1, l2, l3] = u32le 16 ∧
         [t0, t1] = u16le 1 ∧ [d0, d1, d2, d3] = dataTag then
        let dataLen := n0 + 256 * n1 + 65536 * n2 + 16777216 * n3
        if rest.length = dataLen then
          some { channels := c0 + 256 * c1
                 sample_rate := sr0 + 256 * sr1 + 65536 * sr2 + 16777216 * sr3
                 bits_per_sample := bp0 + 256 * bp1
                 data := rest }
        else none
      else none
  | _ => none

/-- `stop_recording`: when not recording, warn and return `b""`; when
recording, stop the stream and return `_create_wav_data()` if any
chunks were captured, else warn and return `b""`. -/
def stop_recording (channels sample_rate : ℕ) (format : PaFormat)
    (s : RecorderState) : RecorderState × List ℕ :=
  if !s.is_recording then (s, [])
  else
    let s1 := { s with is_recording := false }
    if s.audio_data ≠ [] then
      (s1, create_wav_data channels sample_rate format s.audio_data)
    else (s1, [])

end AudioRecorder

/-! ## Claim theorems -/

/-- A controller state with a transcription exchange in flight: the
background `_process_audio` thread is running (`is_transcribing` was
set by the UI timer), recording has already been stopped, and a valid
API key is configured. -/
def transcribingState : MenuBar.AppState :=
  { is_recording := false
    is_transcribing := true
    pending_start_recording := false
    pending_stop_recording := false
    pending_set_transcribing := false
    pending_clear_transcribing := false
    api_key_valid := true
    recorder_starts := 0
    recorder_stops := 0 }

/-- C1, counterexample: an activation delivered while the controller is
Transcribing is not a no-op — `_handle_hotkey` only consults
`is_recording`, so the next UI-timer tick starts a brand-new recording
while the transcription exchange is still in flight. -/
theorem c1_transcribing_activation_not_noop :
    (MenuBar.process_pending_ui_operations
      (MenuBar.handle_hotkey transcribingState)).is_recording = true ∧
    (MenuBar.process_pending_ui_operations
      (MenuBar.handle_hotkey transcribingState)).recorder_starts = 1 ∧
    (MenuBar.process_pending_ui_operations
      (MenuBar.handle_hotkey transcribingState)).is_transcribing = true := by
  decide

/-- C1, amended: an activation while the controller is `Recording` only
requests a stop, but an activation while `Transcribing` (and not
recording) starts a new recording — the transcribing state does not
block activation, so a fresh recording buffer can coexist with the
in-flight transcription exchange. -/
theorem c1_activation_during_transcribing_starts_recording
    (s : MenuBar.AppState)
    (hrec : s.is_recording = false)
    (htr : s.is_transcribing = true)
    (hkey : s.api_key_valid = true)
    (hset : s.pending_set_transcribing = false)
    (hclr : s.pending_clear_transcribing = false) :
    (MenuBar.process_pending_ui_operations
      (MenuBar.handle_hotkey s)).is_recording = true ∧
    (MenuBar.process_pending_ui_operations
      (MenuBar.handle_hotkey s)).recorder_starts = s.recorder_starts + 1 ∧
    (MenuBar.process_pending_ui_operations
      (MenuBar.handle_hotkey s)).is_transcribing = true := by
  simp [MenuBar.handle_hotkey, MenuBar.process_pending_ui_operations,
    MenuBar.start_recording_main_thread, hrec, htr, hkey, hset, hclr]

/-- C1, witness: the amended theorem applied to `transcribingState`. -/
theorem c1_witness :
    transcribingState.is_recording = false ∧
    transcribingState.is_transcribing = true ∧
    transcribingState.api_key_valid = true ∧
    transcribingState.pending_set_transcribing = false ∧
    transcribingState.pending_clear_transcribing = false ∧
    ((MenuBar.process_pending_ui_operations
        (MenuBar.handle_hotkey transcribingState)).is_recording = true ∧
      (MenuBar.process_pending_ui_operations
        (MenuBar.handle_hotkey transcribingState)).recorder_starts =
          transcribingState.recorder_starts + 1 ∧
      (MenuBar.process_pending_ui_operations
        (MenuBar.handle_hotkey transcribingState)).is_transcribing = true) :=
  ⟨rfl, rfl, rfl, rfl, rfl,
    c1_activation_during_transcribing_starts_recording transcribingState
      rfl rfl rfl rfl rfl⟩

/-- A hold-mode hotkey manager in its initial state (the default
`hold_threshold = 0.1` seconds, no press recorded). -/
def holdModeState : HotkeyManager.HotkeyState :=
  { interaction_mode := HotkeyManager.InteractionMode.hold
    hold_threshold := 1 / 10
    key_pressed_time := none }

/-- C2: `_on_key_press` and `_on_key_release` pass
`threading.current_thread().ident or 0` — the pynput listener thread's
identifier — as the event "time", so for a press at wall clock 10 s and a
release at wall clock 10.5 s, both handled on listener thread 123, the
hold duration the code computes is 0, not the wall-clock difference
0.5 s. -/
theorem c2_hold_duration_is_thread_ident_difference :
    (HotkeyManager.on_key_release
      (HotkeyManager.on_key_press holdModeState true (some 123)).1
      true (some 123)).hold_duration = some 0 ∧
    (21 / 2 - 10 : ℚ) ≠ 0 := by
  refine ⟨?_, by norm_num⟩
  simp [HotkeyManager.on_key_release, HotkeyManager.on_key_press,
    HotkeyManager.handle_hotkey_press, HotkeyManager.handle_hotkey_release,
    HotkeyManager.currentTimeOfThread, holdModeState]

/-- A hold-mode state in which the configured key was pressed and the
handler recorded press time 0. -/
def holdPressedState : HotkeyManager.HotkeyState :=
  { interaction_mode := HotkeyManager.InteractionMode.hold
    hold_threshold := 1 / 10
    key_pressed_time := some 0 }

/-- C3, counterexample: in hold mode, a release at time 1/20 of a key
pressed at time 0 has hold duration 1/20 < 1/10 = HoldThreshold, and the
release handler fires no signal at all — in particular it does not emit
the activate signal the claim requires. -/
theorem c3_short_hold_release_emits_nothing :
    (HotkeyManager.handle_hotkey_release holdPressedState (1 / 20)).fired
      = false ∧
    ((1 : ℚ) / 20 - 0 < 1 / 10) := by
  constructor
  · norm_num [HotkeyManager.handle_hotkey_release, holdPressedState]
  · norm_num

/-- C3, amended: in hold mode, a release whose hold duration is strictly
below `hold_threshold` emits no signal whatsoever — neither an activate
nor a deactivate; `_trigger_hotkey` runs only when the duration reaches
the threshold. -/
theorem c3_short_hold_release_fires_no_signal
    (s : HotkeyManager.HotkeyState) (press_time release_time : ℚ)
    (hmode : s.interaction_mode = HotkeyManager.InteractionMode.hold)
    (hpress : s.key_pressed_time = some press_time)
    (hshort : release_time - press_time < s.hold_threshold) :
    (HotkeyManager.handle_hotkey_release s release_time).fired = false := by
  simp [HotkeyManager.handle_hotkey_release, hpress, hmode, not_le.mpr hshort]

/-- C3, witness: the amended theorem applied to `holdPressedState` with
release time 1/20. -/
theorem c3_witness :
    holdPressedState.interaction_mode = HotkeyManager.InteractionMode.hold ∧
    holdPressedState.key_pressed_time = some 0 ∧
    ((1 : ℚ) / 20 - 0 < holdPressedState.hold_threshold) ∧
    (HotkeyManager.handle_hotkey_release holdPressedState (1 / 20)).fired
      = false :=
  ⟨rfl, rfl, by norm_num [holdPressedState],
    c3_short_hold_release_fires_no_signal holdPressedState 0 (1 / 20)
      rfl rfl (by norm_num [holdPressedState])⟩

/-- A streaming client that has not yet connected (the state
`start_realtime_session` has before the websocket opens). -/
def disconnectedClient : OpenAIClient.RealtimeClientState :=
  { realtime_connected := false
    has_websocket := false
    sent_messages := [] }

/-- The client state after a chunk is fed before connection, the
connection then completes, and a second chunk is fed. -/
def c4Run : OpenAIClient.RealtimeClientState :=
  OpenAIClient.send_audio_data
    { OpenAIClient.send_audio_data disconnectedClient [1, 2, 3] with
        realtime_connected := true, has_websocket := true }
    [4, 5, 6]

/-- C4, counterexample: a chunk fed to `send_audio_data` before the
session is connected leaves the client state completely unchanged — no
buffer records it — and after configuration completes only chunks fed
afterwards are ever sent: the early chunk is dropped, not flushed. -/
theorem c4_chunk_before_connection_dropped :
    OpenAIClient.send_audio_data disconnectedClient [1, 2, 3]
      = disconnectedClient ∧
    c4Run.sent_messages = [OpenAIClient.appendMessage [4, 5, 6]] ∧
    OpenAIClient.appendMessage [1, 2, 3] ∉ c4Run.sent_messages := by
  decide

/-- C4, amended: chunks fed before the streaming session is connected
are silently dropped (`send_audio_data` returns with the state
unchanged, so nothing is buffered for a later flush); a chunk fed while
connected is encoded and enqueued as one append message. -/
theorem c4_send_audio_drop_or_send
    (s : OpenAIClient.RealtimeClientState) (chunk : List ℕ) :
    (s.realtime_connected = false ∨ s.has_websocket = false →
      OpenAIClient.send_audio_data s chunk = s) ∧
    (s.realtime_connected = true → s.has_websocket = true →
      (OpenAIClient.send_audio_data s chunk).sent_messages =
        s.sent_messages ++ [OpenAIClient.appendMessage chunk]) := by
  constructor
  · intro h
    rcases h with h | h <;> simp [OpenAIClient.send_audio_data, h]
  · intro h1 h2
    simp [OpenAIClient.send_audio_data, h1, h2]

/-- C4, witness: the amended theorem applied to the disconnected client
and a concrete chunk. -/
theorem c4_witness :
    (disconnectedClient.realtime_connected = false ∨
      disconnectedClient.has_websocket = false) ∧
    OpenAIClient.send_audio_data disconnectedClient [7]
      = disconnectedClient :=
  ⟨Or.inl rfl,
    (c4_send_audio_drop_or_send disconnectedClient [7]).1 (Or.inl rfl)⟩

/-- Little-endian int16 values read from bytes lie in the int16 range. -/
theorem int16OfBytes_bounds (lo hi : ℕ) (hlo : lo < 256) (hhi : hi < 256) :
    -32768 ≤ AudioRecorder.int16OfBytes lo hi ∧
      AudioRecorder.int16OfBytes lo hi ≤ 32767 := by
  simp only [AudioRecorder.int16OfBytes]
  split <;> omega

/-- All samples produced by the int16 view of a byte chunk lie in the
int16 range. -/
theorem int16Samples_bounds :
    ∀ (bs : List ℕ), (∀ b ∈ bs, b < 256) →
      ∀ x ∈ AudioRecorder.int16Samples bs, -32768 ≤ x ∧ x ≤ 32767
  | [], _ => by simp [AudioRecorder.int16Samples]
  | [_], _ => by simp [AudioRecorder.int16Samples]
  | lo :: hi :: rest, h => by
      intro x hx
      rw [show AudioRecorder.int16Samples (lo :: hi :: rest) =
          AudioRecorder.int16OfBytes lo hi ::
            AudioRecorder.int16Samples rest from rfl] at hx
      rcases List.mem_cons.mp hx with rfl | hx
      · exact int16OfBytes_bounds lo hi (h lo (by simp)) (h hi (by simp))
      · exact int16Samples_bounds rest
          (fun b hb => h b (by simp [hb])) x hx

@[simp]
theorem sumSq_nil : AudioRecorder.sumSq [] = 0 := rfl

@[simp]
theorem sumSq_cons (x : ℤ) (xs : List ℤ) :
    AudioRecorder.sumSq (x :: xs) = (x : ℚ) ^ 2 + AudioRecorder.sumSq xs := by
  simp [AudioRecorder.sumSq]

/-- A sum of squares is non-negative. -/
theorem sumSq_nonneg (xs : List ℤ) : 0 ≤ AudioRecorder.sumSq xs := by
  induction xs with
  | nil => simp
  | cons x xs ih => simp only [sumSq_cons]; positivity

/-- A sum of squares bounded termwise is bounded by length times the
bound. -/
theorem sumSq_le (xs : List ℤ) (B : ℚ) (h : ∀ x ∈ xs, (x : ℚ) ^ 2 ≤ B) :
    AudioRecorder.sumSq xs ≤ xs.length * B := by
  induction xs with
  | nil => simp
  | cons x xs ih =>
      have hx := h x (List.mem_cons_self x xs)
      have hrest := ih (fun y hy => h y (List.mem_cons_of_mem x hy))
      simp only [sumSq_cons, List.length_cons]
      push_cast
      nlinarith

/-- The mean of the squared samples is non-negative. -/
theorem mean_val_nonneg (xs : List ℤ) : 0 ≤ AudioRecorder.mean_val xs := by
  unfold AudioRecorder.mean_val
  exact div_nonneg (sumSq_nonneg xs) (by positivity)

/-- The mean of the squared samples of an int16 chunk is at most the
square of the full-scale value 32768. -/
theorem mean_val_le (xs : List ℤ)
    (h : ∀ x ∈ xs, -32768 ≤ x ∧ x ≤ 32767) :
    AudioRecorder.mean_val xs ≤ 32768 ^ 2 := by
  have hsq : ∀ x ∈ xs, (x : ℚ) ^ 2 ≤ 32768 ^ 2 := by
    intro x hx
    have h1 := (h x hx).1
    have h2 := (h x hx).2
    have h1q : (-32768 : ℚ) ≤ (x : ℚ) := by exact_mod_cast h1
    have h2q : (x : ℚ) ≤ 32767 := by exact_mod_cast h2
    nlinarith
  unfold AudioRecorder.mean_val
  rcases Nat.eq_zero_or_pos xs.length with h0 | hpos
  · rw [h0]
    norm_num
  · have hposq : (0 : ℚ) < xs.length := by exact_mod_cast hpos
    rw [div_le_iff₀ hposq]
    calc AudioRecorder.sumSq xs ≤ xs.length * 32768 ^ 2 :=
          sumSq_le xs (32768 ^ 2) hsq
      _ = 32768 ^ 2 * xs.length := by ring

/-- C5: while recording with a registered volume observer, the observer
is invoked exactly once per chunk with the value
`current_volume_of_chunk`; on a non-empty chunk that value equals the
chunk's RMS (root of the mean square of its int16 samples) divided by
the full-scale value 32768, it always lies in `[0, 1]`, and a negative
intermediate mean value would be mapped to volume 0. -/
theorem c5_volume_is_normalized_rms
    (s : AudioRecorder.RecorderState) (in_data : List ℕ) (raises : Bool)
    (hrec : s.is_recording = true)
    (hbytes : ∀ b ∈ in_data, b < 256) :
    (AudioRecorder.audio_callback s in_data true raises).observer_values
      = [AudioRecorder.current_volume_of_chunk in_data] ∧
    (0 < (AudioRecorder.int16Samples in_data).length →
      AudioRecorder.current_volume_of_chunk in_data =
        Real.sqrt
          ((AudioRecorder.mean_val (AudioRecorder.int16Samples in_data) : ℚ)
            : ℝ) / 32768) ∧
    0 ≤ AudioRecorder.current_volume_of_chunk in_data ∧
    AudioRecorder.current_volume_of_chunk in_data ≤ 1 ∧
    (∀ m : ℚ, m < 0 → AudioRecorder.volume_of_mean m = 0) := by
  refine ⟨by simp [AudioRecorder.audio_callback, hrec], ?_, ?_, ?_, ?_⟩
  · intro hpos
    simp only [AudioRecorder.current_volume_of_chunk,
      AudioRecorder.volume_of_mean]
    rw [if_pos hpos, if_pos (mean_val_nonneg _)]
  · unfold AudioRecorder.current_volume_of_chunk AudioRecorder.volume_of_mean
    split
    · split
      · positivity
      · norm_num
    · norm_num
  · unfold AudioRecorder.current_volume_of_chunk AudioRecorder.volume_of_mean
    split
    · rw [if_pos (mean_val_nonneg _)]
      rw [div_le_one (by norm_num)]
      rw [Real.sqrt_le_iff]
      constructor
      · norm_num
      · have hb := mean_val_le (AudioRecorder.int16Samples in_data)
          (int16Samples_bounds in_data hbytes)
        have : ((AudioRecorder.mean_val (AudioRecorder.int16Samples in_data)
            : ℚ) : ℝ) ≤ ((32768 ^ 2 : ℚ) : ℝ) := by exact_mod_cast hb
        push_cast at this ⊢
        linarith
    · norm_num
  · intro m hm
    unfold AudioRecorder.volume_of_mean
    rw [if_neg (not_le.mpr hm)]

/-- A recorder state that is recording with no chunk stored yet. -/
def emptyRecordingState : AudioRecorder.RecorderState :=
  { is_recording := true, audio_data := [] }

/-- C5, witness: the theorem applied to the two-byte chunk `[0, 0]`
(one zero sample). -/
theorem c5_witness :
    emptyRecordingState.is_recording = true ∧
    (∀ b ∈ [0, 0], b < 256) ∧
    ((AudioRecorder.audio_callback emptyRecordingState [0, 0] true
        false).observer_values
      = [AudioRecorder.current_volume_of_chunk [0, 0]] ∧
    (0 < (AudioRecorder.int16Samples [0, 0]).length →
      AudioRecorder.current_volume_of_chunk [0, 0] =
        Real.sqrt
          ((AudioRecorder.mean_val (AudioRecorder.int16Samples [0, 0]) : ℚ)
            : ℝ) / 32768) ∧
    0 ≤ AudioRecorder.current_volume_of_chunk [0, 0] ∧
    AudioRecorder.current_volume_of_chunk [0, 0] ≤ 1 ∧
    (∀ m : ℚ, m < 0 → AudioRecorder.volume_of_mean m = 0)) :=
  ⟨rfl, by decide,
    c5_volume_is_normalized_rms emptyRecordingState [0, 0] false rfl
      (by decide)⟩

/-- C10: an exception raised by the volume observer during the capture
callback is contained by the `try/except` around the observer call: the
entire observable callback result is the same whether or not the
observer raises, the chunk is appended to the recording buffer (the
append precedes the observer call in the source), and the callback
still returns the continue flag. -/
theorem c10_observer_exception_contained
    (s : AudioRecorder.RecorderState) (in_data : List ℕ)
    (has_cb : Bool) (h : s.is_recording = true) :
    AudioRecorder.audio_callback s in_data has_cb true
      = AudioRecorder.audio_callback s in_data has_cb false ∧
    (AudioRecorder.audio_callback s in_data has_cb true).audio_data
      = s.audio_data ++ [in_data] ∧
    (AudioRecorder.audio_callback s in_data has_cb true).continue_flag
      = true := by
  refine ⟨rfl, ?_, ?_⟩ <;> simp [AudioRecorder.audio_callback, h]

/-- C10, witness: the theorem applied to a concrete recording state and
chunk, with the observer registered. -/
theorem c10_witness :
    emptyRecordingState.is_recording = true ∧
    (AudioRecorder.audio_callback emptyRecordingState [1, 2] true true
      = AudioRecorder.audio_callback emptyRecordingState [1, 2] true false ∧
    (AudioRecorder.audio_callback emptyRecordingState [1, 2] true
        true).audio_data = emptyRecordingState.audio_data ++ [[1, 2]] ∧
    (AudioRecorder.audio_callback emptyRecordingState [1, 2] true
        true).continue_flag = true) :=
  ⟨rfl, c10_observer_exception_contained emptyRecordingState [1, 2] true rfl⟩

/-- Every pyaudio format has a sample size of at most 4 bytes. -/
theorem get_sample_size_le (format : AudioRecorder.PaFormat) :
    AudioRecorder.get_sample_size format ≤ 4 := by
  cases format <;> simp [AudioRecorder.get_sample_size]

/-- Decoding the WAV bytes `_create_wav_data` emits recovers the header
fields and the joined sample data exactly. -/
theorem decode_create_wav (channels sample_rate : ℕ)
    (format : AudioRecorder.PaFormat) (audio_data : List (List ℕ))
    (hch : channels < 65536) (hrate : sample_rate < 4294967296)
    (hlen : audio_data.flatten.length < 4294967296) :
    AudioRecorder.decode_wav
        (AudioRecorder.create_wav_data channels sample_rate format audio_data)
      = some { channels := channels
               sample_rate := sample_rate
               bits_per_sample := AudioRecorder.get_sample_size format * 8
               data := audio_data.flatten } := by
  have hsw := get_sample_size_le format
  simp only [AudioRecorder.create_wav_data, AudioRecorder.u16le,
    AudioRecorder.u32le, AudioRecorder.riffTag, AudioRecorder.waveTag,
    AudioRecorder.fmtTag, AudioRecorder.dataTag, List.cons_append,
    List.nil_append]
  rw [AudioRecorder.decode_wav]
  rw [if_pos (by norm_num [AudioRecorder.riffTag, AudioRecorder.waveTag,
    AudioRecorder.fmtTag, AudioRecorder.dataTag, AudioRecorder.u32le,
    AudioRecorder.u16le])]
  rw [if_pos (by omega)]
  simp only [Option.some.injEq, AudioRecorder.WavFile.mk.injEq, and_true,
    true_and]
  omega

/-- C6: stopping a recording that captured at least one chunk yields WAV
bytes whose header declares the configured channel count and sample
rate and the bits-per-sample derived from the format, and whose sample
data decodes back to exactly the concatenation of the captured chunks
in capture order. -/
theorem c6_stop_recording_wav_round_trip (channels sample_rate : ℕ)
    (format : AudioRecorder.PaFormat) (s : AudioRecorder.RecorderState)
    (hrec : s.is_recording = true) (hne : s.audio_data ≠ [])
    (hch : channels < 65536) (hrate : sample_rate < 4294967296)
    (hlen : s.audio_data.flatten.length < 4294967296) :
    AudioRecorder.decode_wav
        (AudioRecorder.stop_recording channels sample_rate format s).2
      = some { channels := channels
               sample_rate := sample_rate
               bits_per_sample := AudioRecorder.get_sample_size format * 8
               data := s.audio_data.flatten } := by
  simp only [AudioRecorder.stop_recording, hrec]
  rw [if_neg (by simp), if_pos hne]
  exact decode_create_wav channels sample_rate format s.audio_data
    hch hrate hlen

/-- A recorder that captured two chunks of one int16 sample each. -/
def twoChunkState : AudioRecorder.RecorderState :=
  { is_recording := true, audio_data := [[1, 2], [3, 4]] }

/-- C6, witness: the round trip evaluated on a mono 16 kHz int16
recording of two two-byte chunks. -/
theorem c6_witness :
    twoChunkState.is_recording = true ∧
    twoChunkState.audio_data ≠ [] ∧
    (1 : ℕ) < 65536 ∧ (16000 : ℕ) < 4294967296 ∧
    twoChunkState.audio_data.flatten.length < 4294967296 ∧
    AudioRecorder.decode_wav
        (AudioRecorder.stop_recording 1 16000 AudioRecorder.PaFormat.paInt16
          twoChunkState).2
      = some { channels := 1
               sample_rate := 16000
               bits_per_sample :=
                 AudioRecorder.get_sample_size AudioRecorder.PaFormat.paInt16
                   * 8
               data := twoChunkState.audio_data.flatten } :=
  ⟨rfl, by decide, by decide, by decide, by decide,
    c6_stop_recording_wav_round_trip 1 16000 AudioRecorder.PaFormat.paInt16
      twoChunkState rfl (by decide) (by decide) (by decide) (by decide)⟩

/-- C7: batch transcription success returns the service response with
surrounding whitespace trimmed, and when the trimmed text is empty the
controller delivers no text, logs no interaction, raises no error
notification, and still requests clearing the transcribing
indicator. -/
theorem c7_empty_transcript_is_no_speech (response : String) :
    (∃ pre suf : List Char,
      response.data =
        pre ++ (OpenAIClient.transcribe_audio_response response).data ++ suf ∧
      (∀ c ∈ pre, c.isWhitespace) ∧ (∀ c ∈ suf, c.isWhitespace)) ∧
    (OpenAIClient.pyStrip response = "" →
      MenuBar.process_audio (Except.ok response) =
        { set_transcribing := true
          logged := none
          delivered := none
          error_notified := false
          clear_transcribing := true }) := by
  constructor
  · refine ⟨response.data.takeWhile Char.isWhitespace,
      ((response.data.dropWhile Char.isWhitespace).reverse.takeWhile
        Char.isWhitespace).reverse, ?_, ?_, ?_⟩
    · show response.data =
        response.data.takeWhile Char.isWhitespace ++
          ((response.data.dropWhile Char.isWhitespace).reverse.dropWhile
            Char.isWhitespace).reverse ++
          ((response.data.dropWhile Char.isWhitespace).reverse.takeWhile
            Char.isWhitespace).reverse
      rw [List.append_assoc, ← List.reverse_append,
        List.takeWhile_append_dropWhile Char.isWhitespace,
        List.reverse_reverse,
        List.takeWhile_append_dropWhile Char.isWhitespace]
    · intro c hc
      exact List.mem_takeWhile_imp hc
    · intro c hc
      rw [List.mem_reverse] at hc
      exact List.mem_takeWhile_imp hc
  · intro h
    simp [MenuBar.process_audio, OpenAIClient.transcribe_audio_response, h]

/-- C7, witness: the theorem applied to the whitespace-only response
`"  "`. -/
theorem c7_witness :
    OpenAIClient.pyStrip "  " = "" ∧
    MenuBar.process_audio (Except.ok "  ") =
      { set_transcribing := true
        logged := none
        delivered := none
        error_notified := false
        clear_transcribing := true } :=
  ⟨by decide, (c7_empty_transcript_is_no_speech "  ").2 (by decide)⟩

/-- C8: a batch transcription failure produces a user-visible error
notification, delivers no text, logs no interaction, and requests
clearing the transcribing state; the next UI-timer tick on any state
with the clear request set turns `is_transcribing` off, returning the
session to Idle. -/
theorem c8_transcription_failure_returns_to_idle
    (msg : String) (s : MenuBar.AppState)
    (h : s.pending_clear_transcribing = true) :
    MenuBar.process_audio (Except.error msg) =
      { set_transcribing := true
        logged := none
        delivered := none
        error_notified := true
        clear_transcribing := true } ∧
    (MenuBar.process_pending_ui_operations s).is_transcribing = false := by
  refine ⟨rfl, ?_⟩
  simp only [MenuBar.process_pending_ui_operations,
    MenuBar.start_recording_main_thread, MenuBar.stop_recording_main_thread]
  split_ifs <;> simp_all

/-- C8, witness: the theorem applied to a concrete error message and the
controller state in which `_process_audio` has just set the clear
request. -/
theorem c8_witness :
    ({ transcribingState with pending_clear_transcribing := true
        : MenuBar.AppState }).pending_clear_transcribing = true ∧
    (MenuBar.process_audio (Except.error "server returned 500") =
      { set_transcribing := true
        logged := none
        delivered := none
        error_notified := true
        clear_transcribing := true } ∧
    (MenuBar.process_pending_ui_operations
      { transcribingState with
          pending_clear_transcribing := true }).is_transcribing = false) :=
  ⟨rfl, c8_transcription_failure_returns_to_idle "server returned 500"
    { transcribingState with pending_clear_transcribing := true } rfl⟩

/-- C9: the request `transcribe_audio` sends carries the audio payload,
the response format `"text"` and the optional language hint, but its
model field is the hardcoded string `"whisper-1"` — the model id passed
down from configuration (`model_transcribe = "gpt-4o-mini"`) is ignored,
contradicting the function's own docstring and log line. -/
theorem c9_model_id_hardcoded :
    (OpenAIClient.transcribe_audio_request [0, 1, 2] "gpt-4o-mini" none).model
      = "whisper-1" ∧
    (OpenAIClient.transcribe_audio_request [0, 1, 2] "gpt-4o-mini" none).file
      = [0, 1, 2] ∧
    (OpenAIClient.transcribe_audio_request
      [0, 1, 2] "gpt-4o-mini" none).response_format = "text" ∧
    (OpenAIClient.transcribe_audio_request
      [0, 1, 2] "gpt-4o-mini" none).language = none ∧
    "whisper-1" ≠ "gpt-4o-mini" := by
  refine ⟨rfl, rfl, rfl, rfl, ?_⟩
  decide

end SpeechTide
